import Mathlib

/-!
Verification of the installation-orchestration workflow of `evilclone.py` and
`set-version.py` (albireox/evilclone), as described in the design document.

Shallow embedding conventions:
* Python strings are Lean `String`s; Python string methods are re-implemented
  structurally over `String.data` so all definitions evaluate by kernel
  reduction.
* The filesystem is a partial map from absolute paths to entries; interactive
  prompt responses and external command outputs are explicit parameters.
* `Option` models abort: `none` is a `click.Abort` / `fail()` / failed
  `assert`, `some` carries the function result together with, where relevant,
  the resulting filesystem and the list of shell commands that were issued.
-/

/-- Python `s.startswith(p)`. -/
def startswith (s p : String) : Bool := p.data.isPrefixOf s.data

/-- Python `s.endswith(p)`. -/
def endswith (s p : String) : Bool := p.data.isSuffixOf s.data

/-- Python `needle in hay` (substring containment on strings). -/
def isSubstrS (needle hay : String) : Bool :=
  hay.data.tails.any (fun t => needle.data.isPrefixOf t)

/-- Split a character list at every occurrence of `c` (keeps empty fields),
mirroring Python `str.split(c)` for a one-character separator. -/
def splitCharAux (c : Char) : List Char → List (List Char)
  | [] => [[]]
  | a :: t =>
    let r := splitCharAux c t
    if a = c then [] :: r
    else match r with
      | [] => [[a]]
      | h :: t2 => (a :: h) :: t2

/-- Python `s.split(c)` for a one-character separator. -/
def splitOnChar (c : Char) (s : String) : List String :=
  (splitCharAux c s.data).map String.mk

/-- Python `s.splitlines()`: split at newlines, with no trailing empty line. -/
def splitlines (s : String) : List String :=
  let parts := (splitCharAux '\n' s.data).map String.mk
  match s.data.getLast? with
  | some c => if c = '\n' then parts.dropLast else parts
  | none => []

/-- Python `s.upper()` (ASCII, which is all this program feeds it). -/
def strUpper (s : String) : String := String.mk (s.data.map Char.toUpper)

/-- Python `s.replace("/", "_")` (single-character pattern). -/
def replaceSlashUnderscore (s : String) : String :=
  String.mk (s.data.map (fun a => if a = '/' then '_' else a))

/-- Python `s.strip()` on a line (whitespace at both ends). -/
def pyStrip (s : String) : String :=
  let ws : Char → Bool := fun a => a == ' ' || a == '\t' || a == '\r'
  String.mk (((s.data.dropWhile ws).reverse.dropWhile ws).reverse)

/-- The single-quote character used inside the emitted Lua directives. -/
def sQuote : String := String.singleton (Char.ofNat 39)

/-- Python truthiness of an `Optional[str]` (`None` and `""` are falsy). -/
def pyTruthy : Option String → Bool
  | none => false
  | some s => decide (s ≠ "")

/-- Python `a or b` for `a : Optional[str]` and a string default `b`. -/
def pyOr (a : Option String) (b : String) : String :=
  match a with
  | some s => if s = "" then b else s
  | none => b

/-- Helper for `posixpath.join`: `a` followed by a separator when needed. -/
def joinBase (a : String) : String :=
  if a = "" ∨ endswith a "/" = true then a else a ++ "/"

/-- `os.path.join(a, b)` (POSIX, two components). -/
def pathJoin (a b : String) : String :=
  if startswith b "/" = true then b else joinBase a ++ b

/-- The `yn` prompt (evilclone.py lines 152-166): in yes-mode it returns
`True` without prompting, otherwise it returns the operator's answer. -/
def yn (ans : Bool) (yes : Bool) : Bool := if yes then true else ans

/-- Character class `[a-zA-Z0-9_-]` of the product-spec regex. -/
def isNameChar (c : Char) : Bool :=
  (decide (97 ≤ c.toNat) && decide (c.toNat ≤ 122))
    || (decide (65 ≤ c.toNat) && decide (c.toNat ≤ 90))
    || (decide (48 ≤ c.toNat) && decide (c.toNat ≤ 57))
    || decide (c.toNat = 95) || decide (c.toNat = 45)

/-- Character class `[><=~!]` (comparator characters) of the regex. -/
def isCmpChar (c : Char) : Bool :=
  decide (c.toNat = 62) || decide (c.toNat = 60) || decide (c.toNat = 61)
    || decide (c.toNat = 126) || decide (c.toNat = 33)

/-- Character class `[0-9.]` (version characters) of the regex. -/
def isVerChar (c : Char) : Bool :=
  (decide (48 ≤ c.toNat) && decide (c.toNat ≤ 57)) || decide (c.toNat = 46)

/-- `get_product_parts` (evilclone.py lines 194-199).
`re.match(r"([a-zA-Z0-9_-]+)[><=~!]*([0-9.]*)", product)` takes the maximal
run of name characters, then the maximal run of comparator characters, then
the maximal run of version characters (all later pieces are nullable, so the
greedy match never backtracks).  The `assert` then demands a match (a
non-empty name) and a non-empty second group; a failed assert aborts
(`none`). -/
def get_product_parts (product : String) : Option (String × String) :=
  let cs := product.data
  let name := cs.takeWhile isNameChar
  let rest := (cs.dropWhile isNameChar).dropWhile isCmpChar
  let version := rest.takeWhile isVerChar
  if name = [] then none
  else if version = [] then none
  else some (String.mk name, String.mk version)

/-- `get_repo_path` (evilclone.py lines 182-191): reject `http*` URLs, prefix
`git@github.com:` to anything not already starting with `git@`. -/
def get_repo_path (product : String) : Option String :=
  if startswith product "http" = true then none
  else if startswith product "git@" = true then some product
  else some ("git@github.com:" ++ product)

/-- `get_env_path` (evilclone.py lines 312-326), parameterized by the raw
output of `pyenv versions --bare --skip-aliases` and by `$PYENV_ROOT`.  The
loop keeps overwriting `env_path`, so the last line containing `environment`
as a substring wins; no match is a hard failure. -/
def get_env_path (environment : String) (versionsOut : String) (pyenvRoot : String) :
    Option String :=
  let python_versions := splitlines versionsOut
  python_versions.foldl
    (fun acc version =>
      if isSubstrS environment version then
        some (pathJoin (pathJoin pyenvRoot "versions") version)
      else acc)
    none

/-- The shell command string built by `run_with_pyenv` (lines 132-149). -/
def pyenv_full_command (command environment env_path : String) : String :=
  "eval \"$(pyenv init --path -)\" && export PATH=\"$PYENV_ROOT/bin:$PATH\" && "
    ++ "export PATH=\"$PYENV_ROOT/shims:$PATH\" && eval \"$(pyenv init -)\" && "
    ++ "pyenv shell " ++ environment ++ " && export VIRTUAL_ENV=" ++ sQuote ++ env_path ++ sQuote
    ++ " && " ++ command

/-- `run_with_pyenv` (lines 132-149): resolve the environment path (its
failure aborts), then run the wrapped command; `cmdOK` is the external
command's success.  Returns the issued command string. -/
def run_with_pyenv (command environment : String) (versionsOut2 pyenvRoot : String)
    (cmdOK : Bool) : Option String :=
  match get_env_path environment versionsOut2 pyenvRoot with
  | none => none
  | some env_path =>
      if cmdOK then some (pyenv_full_command command environment env_path) else none

/-- `create_environment` (evilclone.py lines 202-253).
Parameters after the Python ones: `envAnswer` is the operator's response to
the "Environment name" prompt, `ynUseAns` the raw answer to the reuse prompt,
`versionsOut`/`globalOut` the outputs of the two query commands,
`baseAnswer` the "Base version" response, `versionsOut2`/`pyenvRoot` feed the
bootstrap's `get_env_path`, and the two `OK` flags are external-command
success.  The result is the environment name together with the list of shell
commands issued.  Computing the prompt default in package mode calls
`get_product_parts`, whose failed assert aborts the call. -/
def create_environment (environment : Option String) (product : String) (is_repo : Bool)
    (branch : String) (tag : Option String) (name : Option String) (yes : Bool)
    (envAnswer : String) (ynUseAns : Bool) (versionsOut globalOut baseAnswer : String)
    (versionsOut2 pyenvRoot : String) (virtualenvOK bootstrapOK : Bool) :
    Option (String × List String) :=
  let _branch2 := match tag with | some t => t | none => branch
  let _name := name
  if environment = none ∧ is_repo = false ∧ get_product_parts product = none then none
  else if envAnswer = "" then none
  else
    let versions := (splitlines versionsOut).map pyStrip
    let _pyenv_global := pyStrip globalOut
    let queries := ["pyenv versions --bare", "pyenv global"]
    if envAnswer ∈ versions then
      if yn ynUseAns yes = true then some (envAnswer, queries) else none
    else
      if virtualenvOK = true then
        match run_with_pyenv "pip install -U pip setuptools wheel" envAnswer
            versionsOut2 pyenvRoot bootstrapOK with
        | none => none
        | some pipCmd =>
            some (envAnswer,
              queries ++ ["pyenv virtualenv " ++ baseAnswer ++ " " ++ envAnswer, pipCmd])
      else none

/-- A filesystem entry: a directory or a file with contents. -/
inductive Entry where
  | dir : Entry
  | file (contents : String) : Entry
deriving DecidableEq

/-- The filesystem, a partial map from paths to entries. -/
abbrev FS := String → Option Entry

/-- `os.path.exists`. -/
def fsExists (fs : FS) (p : String) : Bool := (fs p).isSome

/-- Split a character list at the LAST occurrence of `...` that is followed by
at least one character, returning what precedes it.  This is the greedy
behaviour of `(.+)\.\.\.(.+)` after the literal prefix. -/
def lastDotsSplit : List Char → Option (List Char)
  | [] => none
  | c :: t =>
    match lastDotsSplit t with
    | some pre => some (c :: pre)
    | none =>
        if c = '.' ∧ t.take 2 = ['.', '.'] ∧ t.drop 2 ≠ [] then some [] else none

/-- The branch parse of `clone_repo` (lines 291-295):
`re.match(r"## (.+)\.\.\..+", branch_output)`.  `.` does not match a newline,
so only the first line participates; the greedy first group takes everything
up to the last `...` that still leaves one character. -/
def parse_branch (out : String) : Option String :=
  let line := (splitOnChar '\n' out).headD ""
  let cs := line.data
  if cs.take 3 = ['#', '#', ' '] then
    match lastDotsSplit (cs.drop 3) with
    | some pre => if pre ≠ [] then some (String.mk pre) else none
    | none => none
  else none

/-- Effect of `git clone repo_url path` on the filesystem: `path` and
`path/.git` exist as directories, and the working-tree contents under `path`
are an arbitrary overlay `rc`. -/
def applyClone (fs : FS) (path : String) (rc : String → Option Entry) : FS :=
  fun p =>
    if p = path then some Entry.dir
    else if p = pathJoin path ".git" then some Entry.dir
    else if startswith p (path ++ "/") = true then rc p
    else fs p

/-- The local path chosen by `clone_repo` (lines 266-278): tag overrides
branch, the default is `product_dir/<repoName>/<branch with / -> _>`, and the
operator's prompt answer replaces it unless yes-mode is active. -/
def clone_path (repo_url product_dir branch : String) (tag : Option String)
    (yes : Bool) (pathAnswer : String) : String :=
  let branch2 := match tag with | some t => t | none => branch
  let name := (splitOnChar '/' repo_url).getLastD ""
  let default_path := pathJoin (pathJoin product_dir name) (replaceSlashUnderscore branch2)
  if yes then default_path else pathAnswer

/-- `shutil.rmtree` of the directory `gitp`: the directory and everything
under it disappear. -/
def rmGit (fs : FS) (gitp : String) : FS :=
  fun p => if p = gitp ∨ startswith p (gitp ++ "/") = true then none else fs p

/-- Tail of `clone_repo` (lines 303-309): write the `.python-version` pin
file into the checkout, then, when a tag was requested, delete `path/.git`. -/
def clone_finish (environment : String) (tag : Option String) (path : String)
    (fs1 : FS) (cmds : List String) : Option (String × FS × List String) :=
  let fs2 : FS :=
    fun p =>
      if p = pathJoin path ".python-version" then some (Entry.file environment) else fs1 p
  if tag.isSome then some (path, rmGit fs2 (pathJoin path ".git"), cmds)
  else some (path, fs2, cmds)

/-- The non-reuse arm of `clone_repo` (lines 286-309): clone, parse the
current branch from `git status`, create a tracking/tag branch when the
current branch differs, then finish (pin file, optional `.git` removal). -/
def clone_fresh (repo_url environment branch2 : String) (tag : Option String)
    (path : String) (fs : FS) (rc : String → Option Entry) (cloneOK : Bool)
    (statusOut : String) (statusOK checkoutOK : Bool) :
    Option (String × FS × List String) :=
  if cloneOK = true then
    if statusOK = true then
      match parse_branch statusOut with
      | none => none
      | some current_branch =>
          let cmds0 := ["git clone " ++ repo_url ++ " " ++ path,
                        "git status --branch --porcelain"]
          if current_branch ≠ branch2 then
            if checkoutOK = true then
              clone_finish environment tag path (applyClone fs path rc)
                (cmds0 ++
                  [if tag.isSome then
                      "git checkout -b " ++ branch2 ++ " " ++ tag.getD ""
                    else "git checkout -b " ++ branch2 ++ " origin/" ++ branch2])
            else none
          else clone_finish environment tag path (applyClone fs path rc) cmds0
    else none
  else none

/-- `clone_repo` (evilclone.py lines 256-309).  Returns the local path, the
resulting filesystem and the issued git commands; `none` is an abort.  When
the chosen path already exists, the reuse prompt (asked without yes-mode)
either short-circuits with the untouched filesystem or aborts. -/
def clone_repo (repo_url environment product_dir branch : String) (tag : Option String)
    (yes : Bool) (pathAnswer : String) (ynUseAns : Bool) (fs : FS)
    (rc : String → Option Entry) (cloneOK : Bool) (statusOut : String)
    (statusOK checkoutOK : Bool) : Option (String × FS × List String) :=
  let branch2 := match tag with | some t => t | none => branch
  let path := clone_path repo_url product_dir branch tag yes pathAnswer
  if fsExists fs path = true then
    if ynUseAns then some (path, fs, []) else none
  else
    clone_fresh repo_url environment branch2 tag path fs rc cloneOK statusOut
      statusOK checkoutOK

/-- The `conflict('name')` directive (line 413). -/
def conflict_line (name : String) : String := "conflict(" ++ sQuote ++ name ++ sQuote ++ ")"

/-- The `load('dep')` directive (line 417). -/
def load_line (dep : String) : String := "load(" ++ sQuote ++ dep ++ sQuote ++ ")"

/-- The `prereq('dep')` directive (line 417). -/
def prereq_line (dep : String) : String := "prereq(" ++ sQuote ++ dep ++ sQuote ++ ")"

/-- A `setenv('var', 'value')` directive (lines 420 and 433). -/
def setenv_line (var value : String) : String :=
  "setenv(" ++ sQuote ++ var ++ sQuote ++ ", " ++ sQuote ++ value ++ sQuote ++ ")"

/-- A `prepend_path{...}` directive (lines 425-428). -/
def prepend_path_line (var value : String) : String :=
  "prepend_path\x7b" ++ sQuote ++ var ++ sQuote ++ ", " ++ sQuote ++ value ++ sQuote
    ++ ", delim=" ++ sQuote ++ ":" ++ sQuote ++ ", priority=" ++ sQuote ++ "0" ++ sQuote ++ "\x7d"

/-- A line that is not the empty separator line. -/
def isNonBlank (s : String) : Bool := decide (s ≠ "")

/-- The dependency list from the prompt answer (lines 394-401): empty answer
means no dependencies, otherwise whitespace-separated names. -/
def modulefile_deps (depAnswer : String) : List String :=
  if depAnswer = "" then []
  else (splitOnChar ' ' depAnswer).filter (fun s => s ≠ "")

/-- Python dict assignment `d[k] = v` on an insertion-ordered dict. -/
def dictInsert (d : List (String × String)) (k v : String) : List (String × String) :=
  if d.any (fun p => p.1 = k) then d.map (fun p => if p.1 = k then (k, v) else p)
  else d ++ [(k, v)]

/-- The optional `PYTHONPATH`/`PATH` additions to `envvars`
(lines 403-411); both prompts are interactive even in yes-mode. -/
def modulefile_envvars (envvars : List (String × String)) (repo_path : Option String)
    (ynPythonpathAns : Bool) (ppAnswer : String) (ynPathAns : Bool)
    (addPathAnswer : String) : List (String × String) :=
  let e1 := if pyTruthy repo_path && ynPythonpathAns then
      dictInsert envvars "PYTHONPATH" ppAnswer
    else envvars
  if ynPathAns && pyTruthy repo_path then dictInsert e1 "PATH" addPathAnswer else e1

/-- The emission filter of lines 422-424: a binding whose variable name ends
in `PATH` and whose value does not exist on disk is skipped. -/
def envvarKeep (existsFn : String → Bool) (p : String × String) : Bool :=
  !(endswith p.1 "PATH" && !(existsFn p.2))

/-- The `lines` list built by `create_modulefile` (lines 413-433), blank
separator lines included. -/
def mk_modulefile_lines (name environment : String) (is_repo : Bool)
    (repo_path : Option String) (deps : List String)
    (envvars : List (String × String)) (existsFn : String → Bool) : List String :=
  let l4 := [conflict_line name, ""]
    ++ deps.flatMap (fun dep => [load_line dep, prereq_line dep, ""])
    ++ (if is_repo && pyTruthy repo_path then
          [setenv_line (strUpper name ++ "_DIR") (repo_path.getD "")]
        else [])
    ++ (envvars.filter (envvarKeep existsFn)).map
        (fun p => prepend_path_line (strUpper p.1) p.2)
  l4 ++ (if isNonBlank (l4.getLastD "") then [""] else [])
    ++ [setenv_line "PYENV_VERSION" environment, ""]

/-- Name/version resolution of `create_modulefile` (lines 375-384), including
the `assert name` and the `get_product_parts` assert. -/
def modulefile_name_version (product : String) (is_repo : Bool) (branch : String)
    (tag : Option String) (name : Option String) : Option (String × String) :=
  let resolved : Option (String × String) :=
    if is_repo then
      some (pyOr name ((splitOnChar '/' product).getLastD ""), pyOr tag branch)
    else
      if pyTruthy name then (get_product_parts product).map (fun pr => (pyOr name "", pr.2))
      else get_product_parts product
  match resolved with
  | none => none
  | some (n, v) => if n = "" then none else some (n, v)

/-- The final descriptor path of `create_modulefile` (lines 372-390): the
computed `<root>/<name>/<version>.lua`, replaced by the operator's prompt
answer unless yes-mode is active; an empty path aborts. -/
def modulefile_target (product : String) (is_repo : Bool) (branch : String)
    (tag : Option String) (name : Option String) (modulepath : Option String)
    (yes : Bool) (mpAnswer : String) : Option (String × String × String) :=
  let root := modulepath.getD "/home/sdss5/software/modulefiles"
  match modulefile_name_version product is_repo branch tag name with
  | none => none
  | some (n, v) =>
      let mp0 := pathJoin (pathJoin root n) (v ++ ".lua")
      let mp := if yes = false then mpAnswer else mp0
      if mp = "" then none else some (n, v, mp)

/-- `create_modulefile` (evilclone.py lines 355-442), up to and including the
descriptor write; `some (mp, lines)` models writing the file `mp` with the
given lines, `none` models an abort before any write.  The trailing
"Make default?" promotion is modelled by `set_version_promote`. -/
def create_modulefile (product environment : String) (is_repo : Bool) (branch : String)
    (tag : Option String) (name : Option String) (repo_path : Option String)
    (envvars : List (String × String)) (modulepath : Option String) (yes : Bool)
    (ynCreateAns : Bool) (mpAnswer depAnswer : String) (ynPythonpathAns : Bool)
    (ppAnswer : String) (ynPathAns : Bool) (addPathAnswer : String)
    (existsFn : String → Bool) : Option (String × List String) :=
  if yn ynCreateAns yes = false then none
  else
    match modulefile_target product is_repo branch tag name modulepath yes mpAnswer with
    | none => none
    | some (n, _v, mp) =>
        if existsFn mp = true then none
        else
          some (mp,
            mk_modulefile_lines n environment is_repo repo_path
              (modulefile_deps depAnswer)
              (modulefile_envvars envvars repo_path ynPythonpathAns ppAnswer ynPathAns
                addPathAnswer)
              existsFn)

/-- Everything up to and including the last `/` of a character list. -/
def upToLastSlash : List Char → List Char
  | [] => []
  | c :: t =>
    if t.contains '/' then c :: upToLastSlash t
    else if c = '/' then ['/'] else []

/-- `os.path.dirname` (POSIX): the part before the last separator, with
trailing separators stripped unless the result is all separators. -/
def dirname (p : String) : String :=
  let head := upToLastSlash p.data
  if head ≠ [] ∧ head.any (fun a => decide (a ≠ '/')) then
    String.mk ((head.reverse.dropWhile (fun a => a = '/')).reverse)
  else String.mk head

/-- Symbolic links on disk: a partial map from link paths to targets. -/
abbrev LinkFS := String → Option String

/-- The promotion step shared by `set-version.py` lines 40-45 and
`evilclone.py` lines 444-448: remove an existing `default` link in the
descriptor's directory, then symlink `default` to the descriptor.
`os.symlink` fails if its destination still exists, hence the guard. -/
def set_version_promote (fs : LinkFS) (path : String) : Option LinkFS :=
  let module_dir := dirname path
  let dflt := pathJoin module_dir "default"
  let fs1 : LinkFS := if (fs dflt).isSome then (fun p => if p = dflt then none else fs p) else fs
  if (fs1 dflt).isSome then none
  else some (fun p => if p = dflt then some path else fs1 p)

/-- Empty filesystem (witness fixture). -/
def fsEmpty : FS := fun _ => none

/-- Empty clone overlay (witness fixture). -/
def rcNone : String → Option Entry := fun _ => none

/-- An existence oracle that is false everywhere (witness fixture). -/
def existsNone : String → Bool := fun _ => false

/-- An existence oracle that is true everywhere (witness fixture). -/
def existsAll : String → Bool := fun _ => true

/-- Fixture: a filesystem in which `/sw/widget/main` already exists. -/
def fsExistA : FS := fun p => if p = "/sw/widget/main" then some Entry.dir else none

/-- Fixture: a pre-existing clone at `/sw/widget/v1` that still has its
`.git` directory. -/
def fsC4 : FS :=
  fun p =>
    if p = "/sw/widget/v1" ∨ p = "/sw/widget/v1/.git" then some Entry.dir else none

/-- Fixture: a pre-existing directory at `/sw/widget/main` with no
`.python-version` file. -/
def fsC9 : FS := fun p => if p = "/sw/widget/main" then some Entry.dir else none

/-- Result of a fresh tagged acquisition (witness fixture). -/
def c4wRes : Option (String × FS × List String) :=
  clone_repo "git@github.com:org/widget" "env1" "/sw" "main" (some "v1") true "" false
    fsEmpty rcNone true "## main...origin/main" true true

/-- The filesystem produced by `c4wRes`. -/
def c4wFS : FS := (c4wRes.map (fun r => r.2.1)).getD (fun _ => none)

/-- The commands issued by `c4wRes`. -/
def c4wCmds : List String := (c4wRes.map (fun r => r.2.2)).getD []

/-- Result of a fresh branch acquisition (witness fixture). -/
def c9wRes : Option (String × FS × List String) :=
  clone_repo "git@github.com:org/widget" "env2" "/sw" "main" none true "" false
    fsEmpty rcNone true "## main...origin/main" true true

/-- The filesystem produced by `c9wRes`. -/
def c9wFS : FS := (c9wRes.map (fun r => r.2.1)).getD (fun _ => none)

/-- The commands issued by `c9wRes`. -/
def c9wCmds : List String := (c9wRes.map (fun r => r.2.2)).getD []

/-- The lines written by a concrete `create_modulefile` run (witness fixture). -/
def c2wLines : List String :=
  ((create_modulefile "git@github.com:org/widget" "env1" true "main" none none
      (some "/sw/widget/main") [] none true false "" "a b" false "" false ""
      existsNone).map (fun r => r.2)).getD []

/-- The expected directive sequence for `c2wLines` (witness fixture). -/
def c2wRhs : List String :=
  conflict_line "widget"
    :: ((modulefile_deps "a b").flatMap (fun d => [load_line d, prereq_line d])
      ++ (if true && pyTruthy (some "/sw/widget/main") then
            [setenv_line (strUpper "widget" ++ "_DIR") ((some "/sw/widget/main").getD "")]
          else [])
      ++ ((modulefile_envvars [] (some "/sw/widget/main") false "" false "").filter
            (envvarKeep existsNone)).map (fun p => prepend_path_line (strUpper p.1) p.2)
      ++ [setenv_line "PYENV_VERSION" "env1"])

/-! ## Helper lemmas -/

theorem str_append_ne (s t : String) (h : s ≠ "") : s ++ t ≠ "" := by
  intro he
  apply h
  have hd : s.data ++ t.data = [] := by
    rw [← String.data_append, he]
  exact String.ext (List.append_eq_nil.mp hd).1

theorem str_append_left_cancel {a b c : String} (h : a ++ b = a ++ c) : b = c := by
  have hd : a.data ++ b.data = a.data ++ c.data := by
    rw [← String.data_append, ← String.data_append, h]
  exact String.ext (List.append_cancel_left hd)

theorem isPrefixOf_append_cancel (a y x : List Char) :
    (a ++ y).isPrefixOf (a ++ x) = y.isPrefixOf x := by
  induction a with
  | nil => rfl
  | cons c t ih => simp [List.isPrefixOf, ih]

theorem isPrefixOf_append_of {a c : List Char} (s : List Char)
    (h : a.isPrefixOf c = true) : a.isPrefixOf (c ++ s) = true := by
  induction a generalizing c with
  | nil => simp [List.isPrefixOf]
  | cons x xs ih =>
    cases c with
    | nil => simp [List.isPrefixOf] at h
    | cons y ys =>
      have h' : (x == y && xs.isPrefixOf ys) = true := h
      simp only [Bool.and_eq_true] at h'
      show (x == y && xs.isPrefixOf (ys ++ s)) = true
      simp only [Bool.and_eq_true]
      exact ⟨h'.1, ih h'.2⟩

theorem startswith_append_cancel (a x y : String) :
    startswith (a ++ x) (a ++ y) = startswith x y := by
  unfold startswith
  rw [String.data_append, String.data_append, isPrefixOf_append_cancel]

theorem pathJoin_rel (a b : String) (hb : startswith b "/" = false) :
    pathJoin a b = joinBase a ++ b := by
  unfold pathJoin
  simp [hb]

theorem takeWhile_append_pos {p : Char → Bool} {l1 : List Char} (l2 : List Char)
    (h : ∀ a ∈ l1, p a = true) :
    (l1 ++ l2).takeWhile p = l1 ++ l2.takeWhile p := by
  induction l1 with
  | nil => simp
  | cons a t ih =>
    have ha := h a (by simp)
    simp only [List.cons_append, List.takeWhile_cons, ha, if_true]
    rw [ih (fun x hx => h x (by simp [hx]))]

theorem dropWhile_append_pos {p : Char → Bool} {l1 : List Char} (l2 : List Char)
    (h : ∀ a ∈ l1, p a = true) :
    (l1 ++ l2).dropWhile p = l2.dropWhile p := by
  induction l1 with
  | nil => simp
  | cons a t ih =>
    have ha := h a (by simp)
    simp only [List.cons_append, List.dropWhile_cons, ha, if_true]
    exact ih (fun x hx => h x (by simp [hx]))

theorem takeWhile_all {p : Char → Bool} {l : List Char} (h : ∀ a ∈ l, p a = true) :
    l.takeWhile p = l := by
  induction l with
  | nil => rfl
  | cons a t ih =>
    have ha := h a (by simp)
    simp only [List.takeWhile_cons, ha, if_true]
    rw [ih (fun x hx => h x (by simp [hx]))]

theorem dropWhile_cons_neg {p : Char → Bool} {a : Char} (l : List Char)
    (h : p a = false) : (a :: l).dropWhile p = a :: l := by
  simp [List.dropWhile_cons, h]

theorem cmp_not_name {c : Char} (h : isCmpChar c = true) : isNameChar c = false := by
  simp only [isCmpChar, Bool.or_eq_true, decide_eq_true_eq] at h
  simp only [isNameChar, Bool.or_eq_false_iff, Bool.and_eq_false_iff,
    decide_eq_false_iff_not, not_le]
  omega

theorem ver_not_cmp {c : Char} (h : isVerChar c = true) : isCmpChar c = false := by
  simp only [isVerChar, Bool.or_eq_true, Bool.and_eq_true, decide_eq_true_eq] at h
  simp only [isCmpChar, Bool.or_eq_false_iff, decide_eq_false_iff_not]
  omega

theorem foldl_find_last {α β : Type} (p : α → Bool) (g : α → β) (l : List α) :
    ∀ acc : Option β,
      l.foldl (fun a v => if p v then some (g v) else a) acc
        = match l.reverse.find? p with
          | some v => some (g v)
          | none => acc := by
  induction l with
  | nil => intro acc; rfl
  | cons a t ih =>
    intro acc
    have hrev : (a :: t).reverse = t.reverse ++ [a] := by simp
    rw [List.foldl_cons, ih, hrev, List.find?_append]
    cases hf : t.reverse.find? p with
    | some w => simp [Option.or]
    | none =>
      cases hp : p a <;> simp [Option.or, List.find?, hp]

/-! ## C1 -/

/-- C1 counterexample: the spec `a=b` has a well-formed name, a comparator
from the allowed set and a non-empty version `b`, yet `get_product_parts`
aborts (the regex's version group `[0-9.]*` matches nothing, so the assert
fails) instead of returning `("a", "b")`. -/
theorem c1_counterexample :
    isNameChar 'a' = true ∧ isCmpChar '=' = true ∧ ("b" : String) ≠ ""
      ∧ get_product_parts "a=b" = none
      ∧ get_product_parts "a=b" ≠ some ("a", "b") := by
  refine ⟨by decide, by decide, by decide, by decide, by decide⟩

/-- C1 (amended): for every spec `name ++ cmp ++ version` whose name is a
non-empty run of `[A-Za-z0-9_-]` characters, whose comparator is one of
`> < = ~ !` and whose version is a non-empty run of `[0-9.]` characters,
`get_product_parts` returns exactly `(name, version)`; and when the
comparator is followed by no version at all, it aborts with the failed
assertion. -/
theorem c1_parts_amended (nameL verL : List Char) (c : Char)
    (hn0 : nameL ≠ []) (hn : ∀ a ∈ nameL, isNameChar a = true)
    (hc : isCmpChar c = true)
    (hv0 : verL ≠ []) (hv : ∀ a ∈ verL, isVerChar a = true) :
    get_product_parts (String.mk (nameL ++ c :: verL))
        = some (String.mk nameL, String.mk verL)
      ∧ get_product_parts (String.mk (nameL ++ [c])) = none := by
  have hcname : isNameChar c = false := cmp_not_name hc
  constructor
  · unfold get_product_parts
    have h1 : (nameL ++ c :: verL).takeWhile isNameChar = nameL := by
      rw [takeWhile_append_pos _ hn]
      simp [List.takeWhile_cons, hcname]
    have h2 : (nameL ++ c :: verL).dropWhile isNameChar = c :: verL := by
      rw [dropWhile_append_pos _ hn]
      exact dropWhile_cons_neg _ hcname
    have h3 : (c :: verL).dropWhile isCmpChar = verL := by
      simp only [List.dropWhile_cons, hc, if_true]
      cases verL with
      | nil => rfl
      | cons v t =>
        exact dropWhile_cons_neg _ (ver_not_cmp (hv v (by simp)))
    have h4 : verL.takeWhile isVerChar = verL := takeWhile_all hv
    show (if (String.mk (nameL ++ c :: verL)).data.takeWhile isNameChar = [] then _ else _) = _
    rw [show (String.mk (nameL ++ c :: verL)).data = nameL ++ c :: verL from rfl]
    rw [h1, h2, h3, h4]
    rw [if_neg hn0, if_neg hv0]
  · unfold get_product_parts
    have h1 : (nameL ++ [c]).takeWhile isNameChar = nameL := by
      rw [takeWhile_append_pos _ hn]
      simp [List.takeWhile_cons, hcname]
    have h2 : (nameL ++ [c]).dropWhile isNameChar = [c] := by
      rw [dropWhile_append_pos _ hn]
      exact dropWhile_cons_neg _ hcname
    have h3 : ([c] : List Char).dropWhile isCmpChar = [] := by
      simp [List.dropWhile_cons, hc]
    show (if (String.mk (nameL ++ [c])).data.takeWhile isNameChar = [] then _ else _) = _
    rw [show (String.mk (nameL ++ [c])).data = nameL ++ [c] from rfl]
    rw [h1, h2, h3]
    rw [if_neg hn0]
    rfl

/-- C1 witness: the amended statement evaluated at `numpy=1.20` and at
`numpy=`. -/
theorem c1_witness :
    get_product_parts (String.mk ("numpy".data ++ '=' :: "1.20".data))
        = some (String.mk "numpy".data, String.mk "1.20".data)
      ∧ get_product_parts (String.mk ("numpy".data ++ ['='])) = none :=
  c1_parts_amended "numpy".data "1.20".data '=' (by decide) (by decide) (by decide)
    (by decide) (by decide)

/-! ## C6 -/

/-- C6: every URL beginning with `http` is rejected before any clone; every
accepted URL not beginning with `git@` is normalized by prefixing
`git@github.com:`; and every URL `get_repo_path` accepts starts with `git@`
(an SSH-style remote identifier). -/
theorem c6_remote_scheme :
    (∀ s : String, startswith s "http" = true → get_repo_path s = none)
      ∧ (∀ s : String, startswith s "http" = false → startswith s "git@" = false →
          get_repo_path s = some ("git@github.com:" ++ s))
      ∧ (∀ s r : String, get_repo_path s = some r → startswith r "git@" = true) := by
  refine ⟨?_, ?_, ?_⟩
  · intro s h
    unfold get_repo_path
    rw [h]
    rfl
  · intro s h1 h2
    unfold get_repo_path
    rw [h1, h2]
    rfl
  · intro s r h
    unfold get_repo_path at h
    by_cases hh : startswith s "http" = true
    · rw [hh] at h
      simp at h
    · rw [Bool.not_eq_true] at hh
      rw [hh] at h
      by_cases hg : startswith s "git@" = true
      · rw [hg] at h
        simp only [if_true, if_false, Option.some.injEq, Bool.false_eq_true] at h
        rw [← h.symm] at hg
        exact hg
      · rw [Bool.not_eq_true] at hg
        rw [hg] at h
        simp only [Bool.false_eq_true, if_false, Option.some.injEq] at h
        subst h
        unfold startswith
        rw [String.data_append]
        exact isPrefixOf_append_of _ (by decide)

/-- C6 witness: the three parts evaluated at concrete URLs. -/
theorem c6_witness :
    get_repo_path "https://github.com/org/widget" = none
      ∧ get_repo_path "org/widget" = some ("git@github.com:" ++ "org/widget")
      ∧ startswith "git@host:x" "git@" = true :=
  ⟨c6_remote_scheme.1 "https://github.com/org/widget" (by decide),
   c6_remote_scheme.2.1 "org/widget" (by decide) (by decide),
   c6_remote_scheme.2.2 "git@host:x" "git@host:x" (by decide)⟩

/-! ## C10 -/

/-- C10: environment-location lookup matches by substring, not equality.
`get_env_path` returns `PYENV_ROOT/versions/<v>` where `<v>` is the LAST
entry of the version list containing the requested name as a substring, and
it fails exactly when no listed version contains the name as a substring (so
a name that is a proper substring of a later-listed version resolves to that
other version's path). -/
theorem c10_last_substring_match (env out root : String) :
    get_env_path env out root
        = ((splitlines out).reverse.find? (fun v => isSubstrS env v)).map
            (fun v => pathJoin (pathJoin root "versions") v)
      ∧ (get_env_path env out root = none
          ↔ ∀ v ∈ splitlines out, isSubstrS env v = false) := by
  have hmain : get_env_path env out root
      = ((splitlines out).reverse.find? (fun v => isSubstrS env v)).map
          (fun v => pathJoin (pathJoin root "versions") v) := by
    unfold get_env_path
    rw [foldl_find_last (fun v => isSubstrS env v)
      (fun v => pathJoin (pathJoin root "versions") v) (splitlines out) none]
    cases hf : (splitlines out).reverse.find? (fun v => isSubstrS env v) <;> simp
  refine ⟨hmain, ?_⟩
  rw [hmain, Option.map_eq_none', List.find?_eq_none]
  constructor
  · intro h v hv
    simpa using h v (List.mem_reverse.mpr hv)
  · intro h v hv
    simp [h v (List.mem_reverse.mp hv)]

/-! ## C8 -/

/-- C8: after `set_version_promote` the product directory's `default` pointer
exists, is unique (the link map is keyed by full path, so `<dir>/default` has
exactly one entry), and references exactly the promoted descriptor; every
other link is untouched.  The promotion always succeeds because a
pre-existing `default` pointer is unlinked before the new one is created. -/
theorem c8_promote_default (fs : LinkFS) (path : String) :
    set_version_promote fs path
      = some (fun p =>
          if p = pathJoin (dirname path) "default" then some path else fs p) := by
  simp only [set_version_promote]
  by_cases h : (fs (pathJoin (dirname path) "default")).isSome = true
  · simp only [h, if_true]
    rw [if_neg (by simp)]
    congr 1
    funext p
    by_cases hp : p = pathJoin (dirname path) "default" <;> simp [hp]
  · simp only [h, Bool.false_eq_true, if_false]

/-! ## C7 -/

/-- C7: `create_environment` with an environment name that is already in the
version manager's list and an affirmative reuse answer returns that same
name, and the only commands it issues are the two queries
`pyenv versions --bare` and `pyenv global` — no `pyenv virtualenv` creation
command and no pip bootstrap command.  Since the embedding is a pure
function of its inputs and this branch changes no state, a second call with
the same inputs returns the same handle. -/
theorem c7_ensure_idempotent (e0 product : String) (is_repo : Bool) (branch : String)
    (tag : Option String) (name : Option String) (yes : Bool) (e : String)
    (versionsOut globalOut baseAnswer versionsOut2 pyenvRoot : String)
    (virtualenvOK bootstrapOK : Bool)
    (he : ¬ e = "")
    (hmem : e ∈ (splitlines versionsOut).map pyStrip) :
    create_environment (some e0) product is_repo branch tag name yes e true
        versionsOut globalOut baseAnswer versionsOut2 pyenvRoot virtualenvOK bootstrapOK
      = some (e, ["pyenv versions --bare", "pyenv global"]) := by
  unfold create_environment
  rw [if_neg (by simp)]
  rw [if_neg he]
  rw [if_pos hmem]
  rw [if_pos (by cases yes <;> rfl)]

/-- C7 witness: a reuse call on an existing environment `myenv` evaluated
concretely. -/
theorem c7_witness :
    create_environment (some "myenv") "numpy" false "main" none none false "myenv" true
        "3.9.7\nmyenv\n" "3.9.7" "" "" "" false false
      = some ("myenv", ["pyenv versions --bare", "pyenv global"]) :=
  c7_ensure_idempotent "myenv" "numpy" false "main" none none false "myenv"
    "3.9.7\nmyenv\n" "3.9.7" "" "" "" false false (by decide) (by decide)

/-! ## C3 -/

/-- C3: whenever the final target descriptor path already exists at check
time, `create_modulefile` aborts and writes nothing (the model returns the
written file only on success, so `none` is no write). -/
theorem c3_no_overwrite (product environment : String) (is_repo : Bool) (branch : String)
    (tag : Option String) (name : Option String) (repo_path : Option String)
    (envvars : List (String × String)) (modulepath : Option String) (yes : Bool)
    (ynCreateAns : Bool) (mpAnswer depAnswer : String) (ynPythonpathAns : Bool)
    (ppAnswer : String) (ynPathAns : Bool) (addPathAnswer : String)
    (existsFn : String → Bool) (n v mp : String)
    (ht : modulefile_target product is_repo branch tag name modulepath yes mpAnswer
        = some (n, v, mp))
    (hex : existsFn mp = true) :
    create_modulefile product environment is_repo branch tag name repo_path envvars
        modulepath yes ynCreateAns mpAnswer depAnswer ynPythonpathAns ppAnswer ynPathAns
        addPathAnswer existsFn = none := by
  unfold create_modulefile
  rw [ht]
  by_cases h : yn ynCreateAns yes = false
  · rw [if_pos h]
  · rw [if_neg h]
    simp [hex]

/-- C3 witness: registering `widget/main` again when
`/home/sdss5/software/modulefiles/widget/main.lua` already exists aborts. -/
theorem c3_witness :
    create_modulefile "git@github.com:org/widget" "env1" true "main" none none none []
        none true true "" "" false "" false "" existsAll = none :=
  c3_no_overwrite "git@github.com:org/widget" "env1" true "main" none none none [] none
    true true "" "" false "" false "" existsAll "widget" "main"
    "/home/sdss5/software/modulefiles/widget/main.lua" (by decide) (by decide)

/-! ## C2 -/

theorem conflict_line_ne (n : String) : conflict_line n ≠ "" := by
  unfold conflict_line
  simp only [String.append_assoc]
  exact str_append_ne _ _ (by decide)

theorem load_line_ne (d : String) : load_line d ≠ "" := by
  unfold load_line
  simp only [String.append_assoc]
  exact str_append_ne _ _ (by decide)

theorem prereq_line_ne (d : String) : prereq_line d ≠ "" := by
  unfold prereq_line
  simp only [String.append_assoc]
  exact str_append_ne _ _ (by decide)

theorem setenv_line_ne (var value : String) : setenv_line var value ≠ "" := by
  unfold setenv_line
  simp only [String.append_assoc]
  exact str_append_ne _ _ (by decide)

theorem prepend_path_line_ne (var value : String) : prepend_path_line var value ≠ "" := by
  unfold prepend_path_line
  simp only [String.append_assoc]
  exact str_append_ne _ _ (by decide)

theorem isNonBlank_of_ne {s : String} (h : s ≠ "") : isNonBlank s = true := by
  simp [isNonBlank, h]

theorem isNonBlank_empty : isNonBlank "" = false := by decide

theorem filter_dep_lines (deps : List String) :
    List.filter isNonBlank (deps.flatMap (fun dep => [load_line dep, prereq_line dep, ""]))
      = deps.flatMap (fun dep => [load_line dep, prereq_line dep]) := by
  induction deps with
  | nil => rfl
  | cons d t ih =>
    simp only [List.flatMap_cons, List.filter_append, ih]
    congr 1

theorem filter_prepend_lines (l : List (String × String)) :
    List.filter isNonBlank (l.map (fun p => prepend_path_line (strUpper p.1) p.2))
      = l.map (fun p => prepend_path_line (strUpper p.1) p.2) := by
  induction l with
  | nil => rfl
  | cons a t ih =>
    simp [List.filter_cons, isNonBlank_of_ne (prepend_path_line_ne _ _), ih]

theorem mk_lines_filter (n env : String) (is_repo : Bool) (rp : Option String)
    (deps : List String) (ev : List (String × String)) (ex : String → Bool) :
    List.filter isNonBlank (mk_modulefile_lines n env is_repo rp deps ev ex)
      = conflict_line n
        :: (deps.flatMap (fun d => [load_line d, prereq_line d])
          ++ (if is_repo && pyTruthy rp then
                [setenv_line (strUpper n ++ "_DIR") (rp.getD "")] else [])
          ++ (ev.filter (envvarKeep ex)).map
              (fun p => prepend_path_line (strUpper p.1) p.2)
          ++ [setenv_line "PYENV_VERSION" env]) := by
  unfold mk_modulefile_lines
  simp only [List.filter_append]
  rw [filter_dep_lines, filter_prepend_lines]
  have hA : List.filter isNonBlank [conflict_line n, ""] = [conflict_line n] := by
    simp [List.filter_cons, isNonBlank_of_ne (conflict_line_ne n), isNonBlank_empty]
  have hC : List.filter isNonBlank
      (if is_repo && pyTruthy rp then
        [setenv_line (strUpper n ++ "_DIR") (rp.getD "")] else [])
      = (if is_repo && pyTruthy rp then
          [setenv_line (strUpper n ++ "_DIR") (rp.getD "")] else []) := by
    split
    · simp [List.filter_cons, isNonBlank_of_ne (setenv_line_ne _ _)]
    · rfl
  have hSel : List.filter isNonBlank [setenv_line "PYENV_VERSION" env, ""]
      = [setenv_line "PYENV_VERSION" env] := by
    simp [List.filter_cons, isNonBlank_of_ne (setenv_line_ne _ _), isNonBlank_empty]
  rw [hA, hC, hSel]
  have hBlank : ∀ c : Prop, ∀ h : Decidable c,
      List.filter isNonBlank (if c then [""] else []) = [] := by
    intro c h
    split
    · simp [List.filter_cons, isNonBlank_empty]
    · rfl
  rw [hBlank]
  simp [List.append_assoc]

/-- C2: on every successful build, the non-blank lines of the emitted
descriptor are, in order: the self-conflict directive; for each dependency in
operator-given order a load directive immediately followed by a prereq
directive; for source-acquired products the `setenv('<NAME>_DIR', repoPath)`
directive; the prepend-path directives of the collected environment-variable
bindings, in insertion order, restricted to those that pass the
path-existence filter of lines 422-424; and last the
`setenv('PYENV_VERSION', environment)` directive. -/
theorem c2_directive_order (product environment : String) (is_repo : Bool)
    (branch : String) (tag : Option String) (name : Option String)
    (repo_path : Option String) (envvars : List (String × String))
    (modulepath : Option String) (yes : Bool) (ynCreateAns : Bool)
    (mpAnswer depAnswer : String) (ynPythonpathAns : Bool) (ppAnswer : String)
    (ynPathAns : Bool) (addPathAnswer : String) (existsFn : String → Bool)
    (n v mp : String) (lines : List String)
    (ht : modulefile_target product is_repo branch tag name modulepath yes mpAnswer
        = some (n, v, mp))
    (hres : create_modulefile product environment is_repo branch tag name repo_path
        envvars modulepath yes ynCreateAns mpAnswer depAnswer ynPythonpathAns ppAnswer
        ynPathAns addPathAnswer existsFn = some (mp, lines)) :
    List.filter isNonBlank lines
      = conflict_line n
        :: ((modulefile_deps depAnswer).flatMap (fun d => [load_line d, prereq_line d])
          ++ (if is_repo && pyTruthy repo_path then
                [setenv_line (strUpper n ++ "_DIR") (repo_path.getD "")] else [])
          ++ ((modulefile_envvars envvars repo_path ynPythonpathAns ppAnswer ynPathAns
                addPathAnswer).filter (envvarKeep existsFn)).map
              (fun p => prepend_path_line (strUpper p.1) p.2)
          ++ [setenv_line "PYENV_VERSION" environment]) := by
  unfold create_modulefile at hres
  rw [ht] at hres
  by_cases h : yn ynCreateAns yes = false
  · rw [if_pos h] at hres
    exact absurd hres (by simp)
  · rw [if_neg h] at hres
    by_cases hex : existsFn mp = true
    · simp only [hex, if_true] at hres
      exact Option.noConfusion hres
    · simp only [hex, Bool.false_eq_true, if_false, Option.some.injEq,
        Prod.mk.injEq] at hres
      rw [← hres.2]
      exact mk_lines_filter n environment is_repo repo_path (modulefile_deps depAnswer)
        (modulefile_envvars envvars repo_path ynPythonpathAns ppAnswer ynPathAns
          addPathAnswer) existsFn

/-- C2 witness: a concrete build with dependencies `a b` and a repository
path, evaluated to its expected directive sequence. -/
theorem c2_witness : List.filter isNonBlank c2wLines = c2wRhs :=
  c2_directive_order "git@github.com:org/widget" "env1" true "main" none none
    (some "/sw/widget/main") [] none true false "" "a b" false "" false "" existsNone
    "widget" "main" "/home/sdss5/software/modulefiles/widget/main.lua" c2wLines
    (by decide) rfl

/-! ## Clone lemmas and C5, C4, C9 -/

theorem pin_ne_git (path : String) :
    pathJoin path ".python-version" ≠ pathJoin path ".git" := by
  rw [pathJoin_rel _ _ (by decide), pathJoin_rel _ _ (by decide)]
  intro h
  exact absurd (str_append_left_cancel h) (by decide)

theorem pin_not_under_git (path : String) :
    startswith (pathJoin path ".python-version") (pathJoin path ".git" ++ "/") = false := by
  rw [pathJoin_rel _ _ (by decide), pathJoin_rel _ _ (by decide), String.append_assoc]
  rw [show (".git" : String) ++ "/" = ".git/" from rfl]
  rw [startswith_append_cancel]
  decide

theorem clone_finish_pin (env : String) (tag : Option String) (path : String) (fs1 : FS)
    (cmds : List String) (rp : String) (fs2 : FS) (c : List String)
    (h : clone_finish env tag path fs1 cmds = some (rp, fs2, c)) :
    fs2 (pathJoin rp ".python-version") = some (Entry.file env) := by
  unfold clone_finish at h
  by_cases ht : tag.isSome = true
  · rw [if_pos ht] at h
    simp only [Option.some.injEq, Prod.mk.injEq] at h
    obtain ⟨hrp, hfs, -⟩ := h
    subst hrp
    rw [← hfs]
    unfold rmGit
    rw [if_neg ?hcond]
    case hcond =>
      rintro (hor | hor)
      · exact pin_ne_git path hor
      · rw [pin_not_under_git path] at hor
        exact Bool.noConfusion hor
    exact if_pos rfl
  · rw [if_neg ht] at h
    simp only [Option.some.injEq, Prod.mk.injEq] at h
    obtain ⟨hrp, hfs, -⟩ := h
    subst hrp
    rw [← hfs]
    exact if_pos rfl

theorem clone_finish_git (env t path : String) (fs1 : FS) (cmds : List String)
    (rp : String) (fs2 : FS) (c : List String)
    (h : clone_finish env (some t) path fs1 cmds = some (rp, fs2, c)) :
    fs2 (pathJoin rp ".git") = none
      ∧ ∀ p : String, startswith p (pathJoin rp ".git" ++ "/") = true → fs2 p = none := by
  replace h : some (path,
      rmGit (fun p =>
        if p = pathJoin path ".python-version" then some (Entry.file env) else fs1 p)
        (pathJoin path ".git"), cmds) = some (rp, fs2, c) := h
  simp only [Option.some.injEq, Prod.mk.injEq] at h
  obtain ⟨hrp, hfs, -⟩ := h
  subst hrp
  rw [← hfs]
  constructor
  · unfold rmGit
    rw [if_pos (Or.inl rfl)]
  · intro p hp
    unfold rmGit
    rw [if_pos (Or.inr hp)]

theorem clone_fresh_some (repo_url env branch2 : String) (tag : Option String)
    (path : String) (fs : FS) (rc : String → Option Entry) (cloneOK : Bool)
    (statusOut : String) (statusOK checkoutOK : Bool) (rp : String) (fs2 : FS)
    (c : List String)
    (h : clone_fresh repo_url env branch2 tag path fs rc cloneOK statusOut statusOK
        checkoutOK = some (rp, fs2, c)) :
    ∃ fs1 cmds, clone_finish env tag path fs1 cmds = some (rp, fs2, c) := by
  unfold clone_fresh at h
  by_cases h1 : cloneOK = true
  · rw [if_pos h1] at h
    by_cases h2 : statusOK = true
    · rw [if_pos h2] at h
      cases hpb : parse_branch statusOut with
      | none =>
        rw [hpb] at h
        exact Option.noConfusion h
      | some cb =>
        rw [hpb] at h
        simp only at h
        by_cases h3 : cb ≠ branch2
        · rw [if_pos h3] at h
          by_cases h4 : checkoutOK = true
          · rw [if_pos h4] at h
            exact ⟨_, _, h⟩
          · rw [if_neg h4] at h
            exact Option.noConfusion h
        · rw [if_neg h3] at h
          exact ⟨_, _, h⟩
    · rw [if_neg h2] at h
      exact Option.noConfusion h
  · rw [if_neg h1] at h
    exact Option.noConfusion h

/-- C5: when the chosen local path already exists, `clone_repo` never clones
over it: the operator is offered reuse; affirming returns the existing path
with the filesystem unchanged and no command issued, declining aborts. -/
theorem c5_existing_path (repo_url environment product_dir branch : String)
    (tag : Option String) (yes : Bool) (pathAnswer : String) (ynUseAns : Bool)
    (fs : FS) (rc : String → Option Entry) (cloneOK : Bool) (statusOut : String)
    (statusOK checkoutOK : Bool)
    (h : fsExists fs (clone_path repo_url product_dir branch tag yes pathAnswer) = true) :
    clone_repo repo_url environment product_dir branch tag yes pathAnswer ynUseAns fs rc
        cloneOK statusOut statusOK checkoutOK
      = if ynUseAns = true then
          some (clone_path repo_url product_dir branch tag yes pathAnswer, fs, [])
        else none := by
  simp only [clone_repo, h]
  exact if_pos trivial

/-- C5 witness: reusing the pre-existing `/sw/widget/main` returns it with no
command issued and the filesystem untouched. -/
theorem c5_witness :
    clone_repo "git@github.com:org/widget" "env1" "/sw" "main" none true "" true fsExistA
        rcNone true "" true true
      = some ("/sw/widget/main", fsExistA, []) :=
  c5_existing_path "git@github.com:org/widget" "env1" "/sw" "main" none true "" true
    fsExistA rcNone true "" true true rfl

/-- C4 counterexample: a tagged acquisition whose chosen path already exists
is short-circuited by the reuse branch, so `clone_repo` returns successfully
while the returned path still contains its `.git` directory — the returned
snapshot is not sealed. -/
theorem c4_counterexample :
    clone_repo "git@github.com:org/widget" "env1" "/sw" "main" (some "v1") true "" true
        fsC4 rcNone true "" true true
      = some ("/sw/widget/v1", fsC4, [])
      ∧ fsC4 (pathJoin "/sw/widget/v1" ".git") = some Entry.dir := ⟨rfl, rfl⟩

/-- C4 (amended): for every acquisition in which a tag is requested and the
chosen local path does not already exist (so an actual clone is performed),
a successful `clone_repo` leaves no version-control metadata at the returned
path: `<path>/.git` and everything under it are gone. -/
theorem c4_amended_immutable (repo_url environment product_dir branch t : String)
    (yes : Bool) (pathAnswer : String) (ynUseAns : Bool) (fs : FS)
    (rc : String → Option Entry) (cloneOK : Bool) (statusOut : String)
    (statusOK checkoutOK : Bool) (rp : String) (fs2 : FS) (cmds : List String)
    (hfresh : fsExists fs (clone_path repo_url product_dir branch (some t) yes pathAnswer)
        = false)
    (hres : clone_repo repo_url environment product_dir branch (some t) yes pathAnswer
        ynUseAns fs rc cloneOK statusOut statusOK checkoutOK = some (rp, fs2, cmds)) :
    fs2 (pathJoin rp ".git") = none
      ∧ ∀ p : String, startswith p (pathJoin rp ".git" ++ "/") = true → fs2 p = none := by
  simp only [clone_repo, hfresh, Bool.false_eq_true, if_false] at hres
  obtain ⟨fs1, cmds0, hfin⟩ := clone_fresh_some _ _ _ _ _ _ _ _ _ _ _ _ _ _ hres
  exact clone_finish_git _ _ _ _ _ _ _ _ hfin

/-- C4 witness: a fresh clone at tag `v1` evaluated concretely; the returned
filesystem has no `.git` under the returned path. -/
theorem c4_witness : c4wFS (pathJoin "/sw/widget/v1" ".git") = none :=
  (c4_amended_immutable "git@github.com:org/widget" "env1" "/sw" "main" "v1" true ""
    false fsEmpty rcNone true "## main...origin/main" true true "/sw/widget/v1" c4wFS
    c4wCmds rfl rfl).1

/-- C9 counterexample: an acquisition short-circuited by the reuse branch
returns successfully although the pre-existing directory contains no
`.python-version` pin file — nothing is written in that branch. -/
theorem c9_counterexample :
    clone_repo "git@github.com:org/widget" "env1" "/sw" "main" none true "" true fsC9
        rcNone true "" true true
      = some ("/sw/widget/main", fsC9, [])
      ∧ fsC9 (pathJoin "/sw/widget/main" ".python-version") = none := ⟨rfl, rfl⟩

/-- C9 (amended): for every acquisition whose chosen local path does not
already exist (so an actual clone is performed), a successful `clone_repo`
leaves a `.python-version` file at the root of the returned path whose
contents are exactly the environment name. -/
theorem c9_amended_pin (repo_url environment product_dir branch : String)
    (tag : Option String) (yes : Bool) (pathAnswer : String) (ynUseAns : Bool)
    (fs : FS) (rc : String → Option Entry) (cloneOK : Bool) (statusOut : String)
    (statusOK checkoutOK : Bool) (rp : String) (fs2 : FS) (cmds : List String)
    (hfresh : fsExists fs (clone_path repo_url product_dir branch tag yes pathAnswer)
        = false)
    (hres : clone_repo repo_url environment product_dir branch tag yes pathAnswer
        ynUseAns fs rc cloneOK statusOut statusOK checkoutOK = some (rp, fs2, cmds)) :
    fs2 (pathJoin rp ".python-version") = some (Entry.file environment) := by
  simp only [clone_repo, hfresh, Bool.false_eq_true, if_false] at hres
  obtain ⟨fs1, cmds0, hfin⟩ := clone_fresh_some _ _ _ _ _ _ _ _ _ _ _ _ _ _ hres
  exact clone_finish_pin _ _ _ _ _ _ _ _ hfin

/-- C9 witness: a fresh clone on branch `main` evaluated concretely; the
returned filesystem pins the environment name at the checkout root. -/
theorem c9_witness :
    c9wFS (pathJoin "/sw/widget/main" ".python-version") = some (Entry.file "env2") :=
  c9_amended_pin "git@github.com:org/widget" "env2" "/sw" "main" none true "" false
    fsEmpty rcNone true "## main...origin/main" true true "/sw/widget/main" c9wFS
    c9wCmds rfl rfl
